import Mathlib

/-!
# Verification of the wallet-app balances slice and transaction-submission hook

Shallow embedding of `src/src/hooks/useSubmitTxn.ts` and of the balances
redux slice (`src/unnamed/part_000`, i.e. the `balances` slice built with
`createSlice` / `createAsyncThunk`).

JS `Record<Cluster, Record<string, T>>` maps are modelled as total functions
over the three clusters returning partial maps `String → Option T`.
External collaborators (the blockchain connection, `AccountLayout.decode`,
the wallet-sign bottom sheet) are modelled as oracle inputs; the observable
activity of a hook call (SDK transaction construction, network calls,
serialization, the confirmation sheet, dispatches) is recorded as an
ordered effect trace.
-/

namespace WalletApp

/-- The `Cluster` type from `@solana/web3.js`: `'mainnet-beta' | 'devnet' | 'testnet'`. -/
inductive Cluster where
  | mainnetBeta
  | devnet
  | testnet
deriving DecidableEq

/-- One entry of `atas` in the `Tokens` type: `{ tokenAccount, mint, balance }`. -/
structure TokenAccount where
  tokenAccount : String
  mint : String
  balance : Nat
deriving DecidableEq

/-- The `sol` / `dcEscrow` component of `Tokens`: `{ tokenAccount: string; balance: number }`. -/
structure SolBalance where
  tokenAccount : String
  balance : Nat
deriving DecidableEq

/-- The `Tokens` payload returned by `syncTokenAccounts`. -/
structure Tokens where
  atas : List TokenAccount
  sol : SolBalance
  dcEscrow : SolBalance
deriving DecidableEq

/-- The map `AtaBalances = Record<Cluster, Record<string, Tokens>>`. -/
def AtaBalances := Cluster → String → Option Tokens

/-- Opaque `AccountBalance` history point (its fields are never inspected by the slice). -/
structure AccountBalance where
  data : Nat
deriving DecidableEq

/-- The map `BalanceHistoryByCurrency = Record<string, AccountBalance[]>`. -/
def BalanceHistoryByCurrency := String → Option (List AccountBalance)

/-- The map `BalanceHistoryByCluster = Record<Cluster, Record<string, BalanceHistoryByCurrency>>`. -/
def BalanceHistoryByCluster := Cluster → String → Option BalanceHistoryByCurrency

/-- The four price-listed tokens of the `Prices` record. -/
inductive PriceToken where
  | helium
  | solana
  | heliumIot
  | heliumMobile
deriving DecidableEq

/-- An opaque price value (never inspected by the slice). -/
structure Price where
  value : Nat
deriving DecidableEq

/-- The `Prices` record: for each of the four tokens, a currency-keyed record of prices. -/
def Prices := PriceToken → String → Option Price

/-- The `BalancesState` of the balances slice. -/
structure BalancesState where
  balancesLoading : Option Bool
  tokenPrices : Option Prices
  balanceHistory : BalanceHistoryByCluster
  balances : AtaBalances

/-- The slice's `initialState`: empty balances and history for each cluster. -/
def initialState : BalancesState where
  balancesLoading := none
  tokenPrices := none
  balanceHistory := fun _ _ => none
  balances := fun _ _ => none

/-- The `CSAccount` type as used here: only its optional `solanaAddress` matters. -/
structure CSAccount where
  solanaAddress : Option String

/-- Write `Tokens` at `(cluster, address)`, leaving every other key alone
(the effect of `state.balances[cluster][solanaAddress] = payload` under immer). -/
def setTokens (b : AtaBalances) (c : Cluster) (addr : String) (t : Tokens) : AtaBalances :=
  fun c' => if c' = c then (fun a => if a = addr then some t else b c' a) else b c'

/-- Payload of the `updateBalance` reducer. -/
structure UpdateBalancePayload where
  cluster : Cluster
  solanaAddress : String
  balance : Nat
  kind : Bool
  tokenAccount : String

/-- The `updateBalance` reducer. `kind = true` is `'dcEscrow'`, `kind = false` is `'sol'`.
If no `Tokens` entry exists at `(cluster, solanaAddress)` it returns (`if (!prevTokens) return`). -/
def updateBalance (s : BalancesState) (p : UpdateBalancePayload) : BalancesState :=
  match s.balances p.cluster p.solanaAddress with
  | none => s
  | some prevTokens =>
    let next : SolBalance := { tokenAccount := p.tokenAccount, balance := p.balance }
    let tokens' : Tokens :=
      if p.kind then { prevTokens with dcEscrow := next } else { prevTokens with sol := next }
    { s with balances := setTokens s.balances p.cluster p.solanaAddress tokens' }

/-- Payload of the `updateAtaBalance` reducer. -/
structure UpdateAtaBalancePayload where
  cluster : Cluster
  solanaAddress : String
  balance : Nat
  mint : String
  tokenAccount : String

/-- The `updateAtaBalance` reducer: look up `prevAtas` (or `[]`), find the first
entry matching the payload's `(tokenAccount, mint)` pair, and if found set its
balance; otherwise do nothing. -/
def updateAtaBalance (s : BalancesState) (p : UpdateAtaBalancePayload) : BalancesState :=
  let prevAtas :=
    match s.balances p.cluster p.solanaAddress with
    | some tokens => tokens.atas
    | none => []
  match prevAtas.findIdx? (fun a => a.tokenAccount == p.tokenAccount && a.mint == p.mint) with
  | none => s
  | some i =>
    match s.balances p.cluster p.solanaAddress with
    | none => s
    | some tokens =>
      let atas' := tokens.atas.mapIdx
        (fun j a => if j = i then { a with balance := p.balance } else a)
      { s with balances := setTokens s.balances p.cluster p.solanaAddress { tokens with atas := atas' } }

/-- The `meta.arg` of a `syncTokenAccounts` action, with the fields the
fulfilled reducer defensively checks (`!args?.acct.solanaAddress || !args.cluster`)
modelled as options. -/
structure SyncArgs where
  cluster : Option Cluster
  acctSolanaAddress : Option String

/-- The `syncTokenAccounts.pending` reducer: `state.balancesLoading = true`. -/
def syncTokenAccountsPending (s : BalancesState) : BalancesState :=
  { s with balancesLoading := some true }

/-- The `syncTokenAccounts.rejected` reducer: `state.balancesLoading = false`. -/
def syncTokenAccountsRejected (s : BalancesState) : BalancesState :=
  { s with balancesLoading := some false }

/-- The `syncTokenAccounts.fulfilled` reducer: if the action's own arguments carry a
solana address and a cluster, clear the loading flag and store the payload at
`balances[cluster][solanaAddress]`; otherwise `return state` unchanged. -/
def syncTokenAccountsFulfilled (s : BalancesState) (args : SyncArgs) (payload : Tokens) :
    BalancesState :=
  match args.acctSolanaAddress, args.cluster with
  | some solanaAddress, some cluster =>
    { s with
      balancesLoading := some false
      balances := setTokens s.balances cluster solanaAddress payload }
  | _, _ => s

/-- The empty `Prices` record installed when `state.tokenPrices` is undefined. -/
def emptyPrices : Prices := fun _ _ => none

/-- The `readTokenPrices.fulfilled` reducer: for each of the four tokens, store the
payload's price for the requested currency under that currency key, leaving all
other currency keys of the existing record alone. -/
def readTokenPricesFulfilled (s : BalancesState) (currency : String) (payload : Prices) :
    BalancesState :=
  let prices := s.tokenPrices.getD emptyPrices
  let prices' : Prices := fun tok cur =>
    if cur = currency then payload tok currency else prices tok cur
  { s with tokenPrices := some prices' }

/-- The `readBalanceHistory.fulfilled` reducer: ensure a wallet record exists at
`balanceHistory[cluster][address]`, then store the payload under the currency key. -/
def readBalanceHistoryFulfilled (s : BalancesState) (cluster : Cluster)
    (address currency : String) (payload : List AccountBalance) : BalancesState :=
  let wallet := (s.balanceHistory cluster address).getD (fun _ => none)
  let wallet' : BalanceHistoryByCurrency := fun cur =>
    if cur = currency then some payload else wallet cur
  { s with
    balanceHistory := fun c =>
      if c = cluster then (fun a => if a = address then some wallet' else s.balanceHistory c a)
      else s.balanceHistory c }

/-! ## The `syncTokenAccounts` thunk -/

/-- Observable effects of a thunk or hook call, in the order they occur:
SDK transaction construction (`solUtils.*`), a connection RPC call,
`txn.serialize`, presenting the wallet-sign bottom sheet, and a dispatch. -/
inductive Effect where
  | sdk (name : String)
  | network (name : String)
  | serialize
  | showSheet
  | dispatch (action : String)
deriving DecidableEq

/-- Result of `AccountLayout.decode`: the `mint` and the `amount` field
(`amount` optional, since the code guards `accountData.amount || 0`). -/
structure DecodedAccount where
  mint : String
  amount : Option Nat

/-- A raw entry of `connection.getTokenAccountsByOwner(...).value`:
a pubkey (already as base58) and opaque account data, here an abstract handle. -/
structure RawTokenAccount where
  pubkey : String
  data : Nat

/-- A `connection.getAccountInfo` result: opaque data handle plus `lamports`. -/
structure AccountInfo where
  data : Nat
  lamports : Nat

/-- Conversion of a nonnegative integer (a u64 `bigint`) to a JS `number`
(IEEE 754 binary64) read back as an integer: values up to 2^53 are exactly
representable, larger ones are rounded to nearest, ties to even, at 53
significant bits. -/
def f64ofNat (n : Nat) : Nat :=
  if n ≤ 2 ^ 53 then n
  else
    let e := Nat.log2 n - 52
    let q := n / 2 ^ e
    let r := n % 2 ^ e
    let q' := if 2 * r > 2 ^ e ∨ (2 * r = 2 ^ e ∧ q % 2 = 1) then q + 1 else q
    q' * 2 ^ e

/-- The `new BN(v).toNumber()` conversion: succeeds exactly for values below 2^53, otherwise
bn.js raises `Number can only safely store up to 53 bits`. -/
def bnToNumber (n : Nat) : Except Unit Nat :=
  if n < 2 ^ 53 then .ok n else .error ()

/-- Oracle inputs for one `syncTokenAccounts` run: the behaviour of
`AccountLayout.decode` on data handles, the connection's reply to
`getTokenAccountsByOwner`, the two `getAccountInfo` replies (escrow account
and the wallet's own account), and `getEscrowTokenAccount(...).toBase58()`. -/
structure SyncEnv where
  decode : Nat → Except Unit DecodedAccount
  tokenAccounts : List RawTokenAccount
  dcEscrowAcc : Option AccountInfo
  solAcc : Option AccountInfo
  escrowTokenAccount : String

/-- The ata produced for one raw token account:
`{ tokenAccount: pubkey.toBase58(), mint: mint.toBase58(), balance: Number(accountData.amount || 0) }`.
A decode exception propagates (this map is not inside a try/catch). -/
def ataOfRaw (decode : Nat → Except Unit DecodedAccount) (ta : RawTokenAccount) :
    Except Unit TokenAccount :=
  match decode ta.data with
  | .error e => .error e
  | .ok accountData =>
    .ok
      { tokenAccount := ta.pubkey
        mint := accountData.mint
        balance := f64ofNat (accountData.amount.getD 0) }

/-- The `tokenAccounts.value.map(...)` loop where the body can throw: the sequential
map of `ataOfRaw`, propagating the first decode exception. -/
def mapAtas (decode : Nat → Except Unit DecodedAccount) :
    List RawTokenAccount → Except Unit (List TokenAccount)
  | [] => .ok []
  | ta :: rest =>
    match ataOfRaw decode ta with
    | .error e => .error e
    | .ok a =>
      match mapAtas decode rest with
      | .error e => .error e
      | .ok as => .ok (a :: as)

/-- The escrow balance computation: `escrowBalance` starts at 0; inside
`try { ... } catch {}` the code evaluates
`dcEscrowAcc && AccountLayout.decode(dcEscrowAcc.data).amount` and, when that
is truthy, assigns `new BN(v.toString()).toNumber()`. Any exception (decode or
`toNumber`) is swallowed, leaving the initial 0. -/
def escrowBalanceOf (decode : Nat → Except Unit DecodedAccount)
    (dcEscrowAcc : Option AccountInfo) : Nat :=
  let attempt : Except Unit Nat :=
    match dcEscrowAcc with
    | none => .ok 0
    | some acc =>
      match decode acc.data with
      | .error e => .error e
      | .ok accountData =>
        match accountData.amount with
        | none => .ok 0
        | some v => if v = 0 then .ok 0 else bnToNumber v
  match attempt with
  | .ok n => n
  | .error _ => 0

/-- The `syncTokenAccounts` thunk body, as a function of the account argument
and the oracle environment. Returns the effect trace together with the
outcome: the thrown error message or the `Tokens` payload. -/
def syncTokenAccounts (acct : CSAccount) (env : SyncEnv) :
    List Effect × Except String Tokens :=
  match acct.solanaAddress with
  | none => ([], .error "No solana account found")
  | some solanaAddress =>
    let trace1 := [Effect.network "getTokenAccountsByOwner"]
    match mapAtas env.decode env.tokenAccounts with
    | .error _ => (trace1, .error "decode failed")
    | .ok atas =>
      let trace2 := trace1 ++
        [Effect.network "getAccountInfo escrow", Effect.network "getAccountInfo sol"]
      let dcEscrow : SolBalance :=
        { tokenAccount := env.escrowTokenAccount
          balance := escrowBalanceOf env.decode env.dcEscrowAcc }
      let solBalance := (env.solAcc.map AccountInfo.lamports).getD 0
      let sol : SolBalance := { tokenAccount := solanaAddress, balance := solBalance }
      (trace2, .ok { atas := atas, dcEscrow := dcEscrow, sol := sol })

/-! ## The `useSubmitTxn` hook

Each `submit*` callback is modelled as a pure function of the hook's
environment: the optional `currentAccount`, the presence of `anchorProvider`
and `walletSignBottomSheetRef`, and the boolean `decision` that
`walletSignBottomSheetRef.show(...)` resolves to. It returns the ordered
effect trace together with the outcome (`()` for normal return, or the
thrown error message). `t('errors.account')` is modelled by its i18n key. -/

/-- The hook's context values plus the collaborator's decision. -/
structure HookEnv where
  currentAccount : Option CSAccount
  anchorProvider : Bool
  walletSignBottomSheetRef : Bool
  decision : Bool

/-- Truthiness of `currentAccount?.solanaAddress`. -/
def hasSolanaAddress (acct : Option CSAccount) : Bool :=
  match acct with
  | some a => a.solanaAddress.isSome
  | none => false

/-- Outcome of one submit call: its effect trace and either the thrown error
message or unit. -/
def SubmitResult := List Effect × Except String Unit

/-- Shared tail of every submit flow: the bottom sheet is shown; on a false
decision the call throws `'User rejected transaction'`; on approval the listed
dispatches happen. `pre` is the trace accumulated before the sheet. -/
def confirmThenDispatch (pre : List Effect) (decision : Bool)
    (dispatches : List Effect) : SubmitResult :=
  if decision then (pre ++ [Effect.showSheet] ++ dispatches, .ok ())
  else (pre ++ [Effect.showSheet], .error "User rejected transaction")

/-- The `submitPayment` callback: requires `currentAccount?.solanaAddress`, `anchorProvider`
and `walletSignBottomSheetRef`; builds via `solUtils.transferToken`,
serializes, confirms, then dispatches `makePayment`. -/
def submitPayment (env : HookEnv) : SubmitResult :=
  if !(hasSolanaAddress env.currentAccount && env.anchorProvider
      && env.walletSignBottomSheetRef) then
    ([], .error "errors.account")
  else
    confirmThenDispatch [Effect.sdk "transferToken", Effect.serialize]
      env.decision [Effect.dispatch "makePayment"]

/-- The `submitCollectable` callback: same preconditions as `submitPayment`; builds via
`transferCompressedCollectable` or `transferCollectable` depending on whether
the collectable is compressed, then dispatches `makeCollectablePayment`. -/
def submitCollectable (compressed : Bool) (env : HookEnv) : SubmitResult :=
  if !(hasSolanaAddress env.currentAccount && env.anchorProvider
      && env.walletSignBottomSheetRef) then
    ([], .error "errors.account")
  else
    confirmThenDispatch
      [Effect.sdk (if compressed then "transferCompressedCollectable" else "transferCollectable"),
        Effect.serialize]
      env.decision [Effect.dispatch "makeCollectablePayment"]

/-- The `submitTreasurySwap` callback: requires `currentAccount` (not its solana address),
`anchorProvider` and the sheet ref; probes the recipient with
`getAccountInfo`, builds via `createTreasurySwapTxn`, then dispatches
`sendTreasurySwap`. -/
def submitTreasurySwap (env : HookEnv) : SubmitResult :=
  if !(env.currentAccount.isSome && env.anchorProvider
      && env.walletSignBottomSheetRef) then
    ([], .error "errors.account")
  else
    confirmThenDispatch
      [Effect.network "getAccountInfo", Effect.sdk "createTreasurySwapTxn", Effect.serialize]
      env.decision [Effect.dispatch "sendTreasurySwap"]

/-- The `submitAnchorTxn` callback: requires only `anchorProvider` and the sheet ref; the
transaction arrives as an argument, so the flow is serialize → confirm →
dispatch `sendAnchorTxn`. -/
def submitAnchorTxn (env : HookEnv) : SubmitResult :=
  if !(env.anchorProvider && env.walletSignBottomSheetRef) then
    ([], .error "errors.account")
  else
    confirmThenDispatch [Effect.serialize]
      env.decision [Effect.dispatch "sendAnchorTxn"]

/-- The `submitClaimRewards` callback: three separate guards (`anchorProvider`,
`currentAccount`, then the sheet ref with its own message); serializes the
transactions, confirms, then dispatches `claimRewards`. -/
def submitClaimRewards (env : HookEnv) : SubmitResult :=
  if !env.anchorProvider then ([], .error "errors.account")
  else if !env.currentAccount.isSome then ([], .error "errors.account")
  else if !env.walletSignBottomSheetRef then ([], .error "No wallet sign bottom sheet ref")
  else
    confirmThenDispatch [Effect.serialize]
      env.decision [Effect.dispatch "claimRewards"]

/-- The `submitClaimAllRewards` callback: guards all three collaborators; builds via
`claimAllRewardsTxns`, serializes, confirms, then dispatches `claimAllRewards`. -/
def submitClaimAllRewards (env : HookEnv) : SubmitResult :=
  if !(env.anchorProvider && env.currentAccount.isSome
      && env.walletSignBottomSheetRef) then
    ([], .error "errors.account")
  else
    confirmThenDispatch [Effect.sdk "claimAllRewardsTxns", Effect.serialize]
      env.decision [Effect.dispatch "claimAllRewards"]

/-- The `submitMintDataCredits` callback: guards all three; probes the recipient with
`getAccountInfo`, builds via `mintDataCredits`, then dispatches
`sendMintDataCredits`. -/
def submitMintDataCredits (env : HookEnv) : SubmitResult :=
  if !(env.currentAccount.isSome && env.anchorProvider
      && env.walletSignBottomSheetRef) then
    ([], .error "errors.account")
  else
    confirmThenDispatch
      [Effect.network "getAccountInfo", Effect.sdk "mintDataCredits", Effect.serialize]
      env.decision [Effect.dispatch "sendMintDataCredits"]

/-- The `submitDelegateDataCredits` callback: guards all three; builds via
`delegateDataCredits`, then dispatches `sendDelegateDataCredits`. -/
def submitDelegateDataCredits (env : HookEnv) : SubmitResult :=
  if !(env.currentAccount.isSome && env.anchorProvider
      && env.walletSignBottomSheetRef) then
    ([], .error "errors.account")
  else
    confirmThenDispatch [Effect.sdk "delegateDataCredits", Effect.serialize]
      env.decision [Effect.dispatch "sendDelegateDataCredits"]

/-- The `HotspotType` argument of `submitUpdateEntityInfo`. -/
inductive HotspotType where
  | iot
  | mobile
deriving DecidableEq

/-- The `submitUpdateEntityInfo` callback: guards all three collaborators; builds via
`updateEntityInfoTxn`, serializes, confirms, then dispatches
`sendUpdateIotInfo` or `sendUpdateMobileInfo` according to the hotspot type. -/
def submitUpdateEntityInfo (ty : HotspotType) (env : HookEnv) : SubmitResult :=
  if !(env.anchorProvider && env.currentAccount.isSome
      && env.walletSignBottomSheetRef) then
    ([], .error "errors.account")
  else
    confirmThenDispatch [Effect.sdk "updateEntityInfoTxn", Effect.serialize]
      env.decision
      (match ty with
        | .iot => [Effect.dispatch "sendUpdateIotInfo"]
        | .mobile => [Effect.dispatch "sendUpdateMobileInfo"])

/-! ## Sample data for witnesses -/

/-- A concrete `Tokens` value used by witnesses. -/
def sampleTokens : Tokens where
  atas := [{ tokenAccount := "ta1", mint := "m1", balance := 5 }]
  sol := { tokenAccount := "sAddr", balance := 10 }
  dcEscrow := { tokenAccount := "eAddr", balance := 0 }

/-- A concrete state holding `sampleTokens` for devnet address `"addr"`. -/
def sampleState : BalancesState :=
  { initialState with
    balances := setTokens initialState.balances Cluster.devnet "addr" sampleTokens }

/-- A concrete `Prices` record used by witnesses. -/
def samplePrices : Prices := fun _ cur => if cur = "usd" then some { value := 3 } else none

/-- A sync oracle whose single token account decodes with amount 5. -/
def sampleSyncEnv : SyncEnv where
  decode := fun _ => .ok { mint := "m", amount := some 5 }
  tokenAccounts := [{ pubkey := "pk", data := 0 }]
  dcEscrowAcc := none
  solAcc := none
  escrowTokenAccount := "esc"

/-- The `Tokens` snapshot `syncTokenAccounts` produces on `sampleSyncEnv`. -/
def sampleSyncTokens : Tokens where
  atas := [{ tokenAccount := "pk", mint := "m", balance := 5 }]
  sol := { tokenAccount := "addr", balance := 0 }
  dcEscrow := { tokenAccount := "esc", balance := 0 }

/-- A sync oracle with no token accounts whose escrow account data fails to
decode. -/
def sampleFailEnv : SyncEnv where
  decode := fun _ => .error ()
  tokenAccounts := []
  dcEscrowAcc := some { data := 0, lamports := 0 }
  solAcc := none
  escrowTokenAccount := "esc"

/-! ## Theorems -/

/-- C2: a fulfilled `syncTokenAccounts` action whose arguments carry a cluster
and a solana address stores the payload at exactly `balances[cluster][address]`,
replacing the previous `Tokens` value there, and changes no other
`(cluster, address)` entry. -/
theorem claim_C2_sync_fulfilled_stores_at_pair (s : BalancesState) (args : SyncArgs)
    (payload : Tokens) (cluster : Cluster) (addr : String)
    (hc : args.cluster = some cluster) (ha : args.acctSolanaAddress = some addr) :
    (syncTokenAccountsFulfilled s args payload).balances cluster addr = some payload ∧
    ∀ c a, ¬(c = cluster ∧ a = addr) →
      (syncTokenAccountsFulfilled s args payload).balances c a = s.balances c a := by
  unfold syncTokenAccountsFulfilled
  rw [hc, ha]
  constructor
  · simp [setTokens]
  · intro c a hne
    by_cases h1 : c = cluster
    · subst h1
      have h2 : a ≠ addr := fun h => hne ⟨rfl, h⟩
      simp [setTokens, h2]
    · simp [setTokens, h1]

/-- Witness for C2 at a concrete state, args and payload. -/
theorem claim_C2_sync_fulfilled_stores_at_pair_witness :
    (syncTokenAccountsFulfilled initialState
        { cluster := some Cluster.devnet, acctSolanaAddress := some "addr" }
        sampleTokens).balances Cluster.devnet "addr" = some sampleTokens ∧
    (syncTokenAccountsFulfilled initialState
        { cluster := some Cluster.devnet, acctSolanaAddress := some "addr" }
        sampleTokens).balances Cluster.testnet "addr" =
      initialState.balances Cluster.testnet "addr" := by
  have h := claim_C2_sync_fulfilled_stores_at_pair initialState
    { cluster := some Cluster.devnet, acctSolanaAddress := some "addr" }
    sampleTokens Cluster.devnet "addr" rfl rfl
  exact ⟨h.1, h.2 Cluster.testnet "addr" (by simp)⟩

/-- C3: when no entry of `balances[cluster][solanaAddress].atas` matches the
action's `(tokenAccount, mint)` pair — in particular when the cluster or
address has no entry at all — `updateAtaBalance` leaves the state unchanged. -/
theorem claim_C3_updateAtaBalance_noop_when_absent (s : BalancesState)
    (p : UpdateAtaBalancePayload)
    (h : ∀ t, s.balances p.cluster p.solanaAddress = some t →
      ∀ a ∈ t.atas, ¬(a.tokenAccount = p.tokenAccount ∧ a.mint = p.mint)) :
    updateAtaBalance s p = s := by
  unfold updateAtaBalance
  cases hb : s.balances p.cluster p.solanaAddress with
  | none => simp
  | some tokens =>
    have hnone : tokens.atas.findIdx?
        (fun a => a.tokenAccount == p.tokenAccount && a.mint == p.mint) = none := by
      rw [List.findIdx?_eq_none_iff]
      intro a ha
      have := h tokens hb a ha
      simp only [Bool.and_eq_false_iff, beq_eq_false_iff_ne, ne_eq]
      by_cases h1 : a.tokenAccount = p.tokenAccount
      · exact Or.inr fun h2 => this ⟨h1, h2⟩
      · exact Or.inl h1
    simp [hnone]

/-- Witness for C3: an update against a state whose only entry does not match
the payload's mint. -/
theorem claim_C3_updateAtaBalance_noop_when_absent_witness :
    updateAtaBalance sampleState
      { cluster := Cluster.devnet, solanaAddress := "addr", balance := 99,
        mint := "otherMint", tokenAccount := "ta1" } = sampleState := by
  apply claim_C3_updateAtaBalance_noop_when_absent
  intro t ht a ha
  have ht' : t = sampleTokens := by
    have := ht
    simp [sampleState, setTokens, initialState] at this
    exact this.symm
  subst ht'
  simp [sampleTokens] at ha
  subst ha
  simp

/-- C8: an `updateBalance` action (either kind) against a `(cluster, address)`
pair with no `Tokens` entry leaves the state entirely unchanged. -/
theorem claim_C8_updateBalance_noop_when_absent (s : BalancesState)
    (p : UpdateBalancePayload) (h : s.balances p.cluster p.solanaAddress = none) :
    updateBalance s p = s := by
  unfold updateBalance
  rw [h]

/-- Witness for C8 at a concrete state and payload. -/
theorem claim_C8_updateBalance_noop_when_absent_witness :
    updateBalance sampleState
      { cluster := Cluster.testnet, solanaAddress := "addr", balance := 7,
        kind := true, tokenAccount := "ta" } = sampleState := by
  apply claim_C8_updateBalance_noop_when_absent
  simp [sampleState, setTokens, initialState]

/-- C9: a fulfilled `syncTokenAccounts` action whose meta arguments lack the
solana address or the cluster leaves the state unchanged; in particular the
`balancesLoading` flag set to `true` by the pending case stays `true`. -/
theorem claim_C9_sync_fulfilled_noop_when_args_missing (s : BalancesState)
    (args : SyncArgs) (payload : Tokens)
    (h : args.acctSolanaAddress = none ∨ args.cluster = none) :
    syncTokenAccountsFulfilled s args payload = s ∧
    (syncTokenAccountsFulfilled (syncTokenAccountsPending s) args payload).balancesLoading =
      some true := by
  have key : ∀ s' : BalancesState, syncTokenAccountsFulfilled s' args payload = s' := by
    intro s'
    unfold syncTokenAccountsFulfilled
    rcases h with h | h <;> rw [h]
    cases args.acctSolanaAddress <;> rfl
  exact ⟨key s, by rw [key (syncTokenAccountsPending s)]; rfl⟩

/-- Witness for C9: missing cluster leaves a concrete state untouched and the
loading flag raised. -/
theorem claim_C9_sync_fulfilled_noop_when_args_missing_witness :
    syncTokenAccountsFulfilled sampleState
      { cluster := none, acctSolanaAddress := some "addr" } sampleTokens = sampleState ∧
    (syncTokenAccountsFulfilled (syncTokenAccountsPending sampleState)
      { cluster := none, acctSolanaAddress := some "addr" } sampleTokens).balancesLoading =
      some true :=
  claim_C9_sync_fulfilled_noop_when_args_missing sampleState
    { cluster := none, acctSolanaAddress := some "addr" } sampleTokens (Or.inr rfl)

/-- C6: every balances-slice operation acting on a given cluster —
`updateBalance`, `updateAtaBalance`, the fulfilled `syncTokenAccounts`
reducer and the fulfilled `readBalanceHistory` reducer — leaves the
`balances` and `balanceHistory` entries of every other cluster unchanged. -/
theorem claim_C6_cluster_isolation :
    (∀ (s : BalancesState) (p : UpdateBalancePayload) (c : Cluster), c ≠ p.cluster →
      (updateBalance s p).balances c = s.balances c ∧
      (updateBalance s p).balanceHistory c = s.balanceHistory c) ∧
    (∀ (s : BalancesState) (p : UpdateAtaBalancePayload) (c : Cluster), c ≠ p.cluster →
      (updateAtaBalance s p).balances c = s.balances c ∧
      (updateAtaBalance s p).balanceHistory c = s.balanceHistory c) ∧
    (∀ (s : BalancesState) (args : SyncArgs) (payload : Tokens) (c : Cluster),
      args.cluster ≠ some c →
      (syncTokenAccountsFulfilled s args payload).balances c = s.balances c ∧
      (syncTokenAccountsFulfilled s args payload).balanceHistory c = s.balanceHistory c) ∧
    (∀ (s : BalancesState) (cl : Cluster) (addr cur : String)
      (payload : List AccountBalance) (c : Cluster), c ≠ cl →
      (readBalanceHistoryFulfilled s cl addr cur payload).balances c = s.balances c ∧
      (readBalanceHistoryFulfilled s cl addr cur payload).balanceHistory c =
        s.balanceHistory c) := by
  refine ⟨?_, ?_, ?_, ?_⟩
  · intro s p c h
    unfold updateBalance
    cases hb : s.balances p.cluster p.solanaAddress with
    | none => exact ⟨rfl, rfl⟩
    | some tokens =>
      refine ⟨?_, rfl⟩
      funext a
      simp [setTokens, h]
  · intro s p c h
    unfold updateAtaBalance
    cases hb : s.balances p.cluster p.solanaAddress with
    | none => exact ⟨rfl, rfl⟩
    | some tokens =>
      dsimp only
      cases hf : tokens.atas.findIdx?
          (fun a => a.tokenAccount == p.tokenAccount && a.mint == p.mint) with
      | none => exact ⟨rfl, rfl⟩
      | some i =>
        refine ⟨?_, rfl⟩
        funext a
        simp [setTokens, h]
  · intro s args payload c h
    unfold syncTokenAccountsFulfilled
    cases ha : args.acctSolanaAddress with
    | none => exact ⟨rfl, rfl⟩
    | some addr =>
      cases hc : args.cluster with
      | none => exact ⟨rfl, rfl⟩
      | some cl =>
        have hcc : c ≠ cl := by
          rintro rfl
          exact h hc
        refine ⟨?_, rfl⟩
        funext a
        simp [setTokens, hcc]
  · intro s cl addr cur payload c h
    refine ⟨rfl, ?_⟩
    funext a
    simp [readBalanceHistoryFulfilled, h]

/-- Witness for C6: updating devnet entries leaves mainnet balances and
testnet history of a concrete state untouched. -/
theorem claim_C6_cluster_isolation_witness :
    (updateBalance sampleState
      { cluster := Cluster.devnet, solanaAddress := "addr", balance := 3,
        kind := false, tokenAccount := "t" }).balances Cluster.mainnetBeta =
      sampleState.balances Cluster.mainnetBeta ∧
    (readBalanceHistoryFulfilled sampleState Cluster.devnet "addr" "usd"
      []).balanceHistory Cluster.testnet = sampleState.balanceHistory Cluster.testnet := by
  constructor
  · exact (claim_C6_cluster_isolation.1 sampleState
      { cluster := Cluster.devnet, solanaAddress := "addr", balance := 3,
        kind := false, tokenAccount := "t" } Cluster.mainnetBeta (by decide)).1
  · exact (claim_C6_cluster_isolation.2.2.2 sampleState Cluster.devnet "addr" "usd" []
      Cluster.testnet (by decide)).2

/-- C7: the fulfilled `readTokenPrices` reducer writes the fetched prices only
under the requested currency key, so for every token and every other currency
already present in `tokenPrices`, the stored price is unchanged. -/
theorem claim_C7_price_merge_preserves_other_currencies (s : BalancesState)
    (currency : String) (payload : Prices) (p : Prices) (hp : s.tokenPrices = some p)
    (tok : PriceToken) (c : String) (hc : c ≠ currency) :
    ∃ q, (readTokenPricesFulfilled s currency payload).tokenPrices = some q ∧
      q tok c = p tok c := by
  refine ⟨_, rfl, ?_⟩
  simp [hc, hp]

/-- Witness for C7: fetching EUR prices leaves a stored USD price intact. -/
theorem claim_C7_price_merge_preserves_other_currencies_witness :
    ∃ q, (readTokenPricesFulfilled
        { sampleState with tokenPrices := some samplePrices } "eur"
        emptyPrices).tokenPrices = some q ∧
      q PriceToken.helium "usd" = samplePrices PriceToken.helium "usd" :=
  claim_C7_price_merge_preserves_other_currencies
    { sampleState with tokenPrices := some samplePrices } "eur" emptyPrices
    samplePrices rfl PriceToken.helium "usd" (by decide)

/-- C1: for every submit operation of the `useSubmitTxn` hook, when the
confirmation collaborator resolves to a false decision the operation throws
`'User rejected transaction'` (given its preconditions held, so the sheet was
reached), and in all cases no submission action is ever dispatched. -/
theorem claim_C1_reject_throws_and_never_dispatches (env : HookEnv)
    (hd : env.decision = false) :
    (((hasSolanaAddress env.currentAccount && env.anchorProvider
        && env.walletSignBottomSheetRef) = true →
      (submitPayment env).2 = .error "User rejected transaction") ∧
      ∀ a, Effect.dispatch a ∉ (submitPayment env).1) ∧
    (∀ compressed : Bool,
      ((hasSolanaAddress env.currentAccount && env.anchorProvider
          && env.walletSignBottomSheetRef) = true →
        (submitCollectable compressed env).2 = .error "User rejected transaction") ∧
      ∀ a, Effect.dispatch a ∉ (submitCollectable compressed env).1) ∧
    (((env.currentAccount.isSome && env.anchorProvider
        && env.walletSignBottomSheetRef) = true →
      (submitTreasurySwap env).2 = .error "User rejected transaction") ∧
      ∀ a, Effect.dispatch a ∉ (submitTreasurySwap env).1) ∧
    (((env.anchorProvider && env.walletSignBottomSheetRef) = true →
      (submitAnchorTxn env).2 = .error "User rejected transaction") ∧
      ∀ a, Effect.dispatch a ∉ (submitAnchorTxn env).1) ∧
    (((env.anchorProvider && env.currentAccount.isSome
        && env.walletSignBottomSheetRef) = true →
      (submitClaimRewards env).2 = .error "User rejected transaction") ∧
      ∀ a, Effect.dispatch a ∉ (submitClaimRewards env).1) ∧
    (((env.anchorProvider && env.currentAccount.isSome
        && env.walletSignBottomSheetRef) = true →
      (submitClaimAllRewards env).2 = .error "User rejected transaction") ∧
      ∀ a, Effect.dispatch a ∉ (submitClaimAllRewards env).1) ∧
    (((env.currentAccount.isSome && env.anchorProvider
        && env.walletSignBottomSheetRef) = true →
      (submitMintDataCredits env).2 = .error "User rejected transaction") ∧
      ∀ a, Effect.dispatch a ∉ (submitMintDataCredits env).1) ∧
    (((env.currentAccount.isSome && env.anchorProvider
        && env.walletSignBottomSheetRef) = true →
      (submitDelegateDataCredits env).2 = .error "User rejected transaction") ∧
      ∀ a, Effect.dispatch a ∉ (submitDelegateDataCredits env).1) ∧
    (∀ ty : HotspotType,
      ((env.anchorProvider && env.currentAccount.isSome
          && env.walletSignBottomSheetRef) = true →
        (submitUpdateEntityInfo ty env).2 = .error "User rejected transaction") ∧
      ∀ a, Effect.dispatch a ∉ (submitUpdateEntityInfo ty env).1) := by
  refine ⟨⟨?_, ?_⟩, fun compressed => ⟨?_, ?_⟩, ⟨?_, ?_⟩, ⟨?_, ?_⟩, ⟨?_, ?_⟩,
    ⟨?_, ?_⟩, ⟨?_, ?_⟩, ⟨?_, ?_⟩, fun ty => ⟨?_, ?_⟩⟩
  · intro hp
    simp [submitPayment, hp, confirmThenDispatch, hd]
  · intro a
    cases hp : (hasSolanaAddress env.currentAccount && env.anchorProvider
        && env.walletSignBottomSheetRef) <;>
      simp [submitPayment, hp, confirmThenDispatch, hd]
  · intro hp
    simp [submitCollectable, hp, confirmThenDispatch, hd]
  · intro a
    cases hp : (hasSolanaAddress env.currentAccount && env.anchorProvider
        && env.walletSignBottomSheetRef) <;>
      cases compressed <;>
      simp [submitCollectable, hp, confirmThenDispatch, hd]
  · intro hp
    simp [submitTreasurySwap, hp, confirmThenDispatch, hd]
  · intro a
    cases hp : (env.currentAccount.isSome && env.anchorProvider
        && env.walletSignBottomSheetRef) <;>
      simp [submitTreasurySwap, hp, confirmThenDispatch, hd]
  · intro hp
    simp [submitAnchorTxn, hp, confirmThenDispatch, hd]
  · intro a
    cases hp : (env.anchorProvider && env.walletSignBottomSheetRef) <;>
      simp [submitAnchorTxn, hp, confirmThenDispatch, hd]
  · intro hp
    simp only [Bool.and_eq_true] at hp
    simp [submitClaimRewards, hp.1.1, hp.1.2, hp.2, confirmThenDispatch, hd]
  · intro a
    cases h1 : env.anchorProvider <;> cases h2 : env.currentAccount.isSome <;>
      cases h3 : env.walletSignBottomSheetRef <;>
      simp [submitClaimRewards, h1, h2, h3, confirmThenDispatch, hd]
  · intro hp
    simp [submitClaimAllRewards, hp, confirmThenDispatch, hd]
  · intro a
    cases hp : (env.anchorProvider && env.currentAccount.isSome
        && env.walletSignBottomSheetRef) <;>
      simp [submitClaimAllRewards, hp, confirmThenDispatch, hd]
  · intro hp
    simp [submitMintDataCredits, hp, confirmThenDispatch, hd]
  · intro a
    cases hp : (env.currentAccount.isSome && env.anchorProvider
        && env.walletSignBottomSheetRef) <;>
      simp [submitMintDataCredits, hp, confirmThenDispatch, hd]
  · intro hp
    simp [submitDelegateDataCredits, hp, confirmThenDispatch, hd]
  · intro a
    cases hp : (env.currentAccount.isSome && env.anchorProvider
        && env.walletSignBottomSheetRef) <;>
      simp [submitDelegateDataCredits, hp, confirmThenDispatch, hd]
  · intro hp
    simp [submitUpdateEntityInfo, hp, confirmThenDispatch, hd]
  · intro a
    cases hp : (env.anchorProvider && env.currentAccount.isSome
        && env.walletSignBottomSheetRef) <;>
      cases ty <;>
      simp [submitUpdateEntityInfo, hp, confirmThenDispatch, hd]

/-- Witness for C1: with all collaborators present and a false decision,
`submitPayment` throws the rejection error and dispatches nothing. -/
theorem claim_C1_reject_throws_and_never_dispatches_witness :
    (submitPayment
      { currentAccount := some { solanaAddress := some "addr" },
        anchorProvider := true, walletSignBottomSheetRef := true,
        decision := false }).2 = .error "User rejected transaction" ∧
    Effect.dispatch "makePayment" ∉ (submitPayment
      { currentAccount := some { solanaAddress := some "addr" },
        anchorProvider := true, walletSignBottomSheetRef := true,
        decision := false }).1 := by
  have h := claim_C1_reject_throws_and_never_dispatches
    { currentAccount := some { solanaAddress := some "addr" },
      anchorProvider := true, walletSignBottomSheetRef := true,
      decision := false } rfl
  exact ⟨h.1.1 (by decide), h.1.2 "makePayment"⟩

/-- C5: every submit operation of the hook, and the `syncTokenAccounts` thunk,
fails fast when a required precondition is missing: it throws its descriptive
error with an empty effect trace, i.e. before any network call, transaction
construction, signing request, or dispatch. -/
theorem claim_C5_missing_precondition_fails_fast (env : HookEnv) :
    (((hasSolanaAddress env.currentAccount && env.anchorProvider
        && env.walletSignBottomSheetRef) = false →
      submitPayment env = ([], .error "errors.account")) ∧
    (∀ compressed : Bool,
      (hasSolanaAddress env.currentAccount && env.anchorProvider
          && env.walletSignBottomSheetRef) = false →
        submitCollectable compressed env = ([], .error "errors.account")) ∧
    ((env.currentAccount.isSome && env.anchorProvider
        && env.walletSignBottomSheetRef) = false →
      submitTreasurySwap env = ([], .error "errors.account")) ∧
    ((env.anchorProvider && env.walletSignBottomSheetRef) = false →
      submitAnchorTxn env = ([], .error "errors.account")) ∧
    ((env.anchorProvider && env.currentAccount.isSome
        && env.walletSignBottomSheetRef) = false →
      (submitClaimRewards env).1 = [] ∧
      ((submitClaimRewards env).2 = .error "errors.account" ∨
        (submitClaimRewards env).2 = .error "No wallet sign bottom sheet ref")) ∧
    ((env.anchorProvider && env.currentAccount.isSome
        && env.walletSignBottomSheetRef) = false →
      submitClaimAllRewards env = ([], .error "errors.account")) ∧
    ((env.currentAccount.isSome && env.anchorProvider
        && env.walletSignBottomSheetRef) = false →
      submitMintDataCredits env = ([], .error "errors.account")) ∧
    ((env.currentAccount.isSome && env.anchorProvider
        && env.walletSignBottomSheetRef) = false →
      submitDelegateDataCredits env = ([], .error "errors.account")) ∧
    (∀ ty : HotspotType,
      (env.anchorProvider && env.currentAccount.isSome
          && env.walletSignBottomSheetRef) = false →
        submitUpdateEntityInfo ty env = ([], .error "errors.account"))) ∧
    (∀ (acct : CSAccount) (senv : SyncEnv), acct.solanaAddress = none →
      syncTokenAccounts acct senv = ([], .error "No solana account found")) := by
  constructor
  · refine ⟨?_, ?_, ?_, ?_, ?_, ?_, ?_, ?_, ?_⟩
    · intro hp
      simp [submitPayment, hp]
    · intro compressed hp
      simp [submitCollectable, hp]
    · intro hp
      simp [submitTreasurySwap, hp]
    · intro hp
      simp [submitAnchorTxn, hp]
    · intro hp
      cases h1 : env.anchorProvider <;> cases h2 : env.currentAccount.isSome <;>
        cases h3 : env.walletSignBottomSheetRef <;>
        simp [submitClaimRewards, h1, h2, h3]
      simp [h1, h2, h3] at hp
    · intro hp
      simp [submitClaimAllRewards, hp]
    · intro hp
      simp [submitMintDataCredits, hp]
    · intro hp
      simp [submitDelegateDataCredits, hp]
    · intro ty hp
      simp [submitUpdateEntityInfo, hp]
  · intro acct senv ha
    unfold syncTokenAccounts
    rw [ha]

/-- Witness for C5: a missing bottom-sheet ref makes `submitPayment` fail with
the account error and an empty trace, and a missing solana address makes the
sync thunk fail before any network call. -/
theorem claim_C5_missing_precondition_fails_fast_witness :
    submitPayment
      { currentAccount := some { solanaAddress := some "addr" },
        anchorProvider := true, walletSignBottomSheetRef := false,
        decision := true } = ([], .error "errors.account") ∧
    syncTokenAccounts { solanaAddress := none }
      { decode := fun _ => .error (), tokenAccounts := [], dcEscrowAcc := none,
        solAcc := none, escrowTokenAccount := "e" } =
      ([], .error "No solana account found") := by
  have h := claim_C5_missing_precondition_fails_fast
    { currentAccount := some { solanaAddress := some "addr" },
      anchorProvider := true, walletSignBottomSheetRef := false,
      decision := true }
  exact ⟨h.1.1 (by decide), h.2 { solanaAddress := none } _ rfl⟩

theorem mapAtas_ok_of_decode_ok (decode : Nat → Except Unit DecodedAccount) :
    ∀ l : List RawTokenAccount, (∀ ta ∈ l, ∃ d, decode ta.data = .ok d) →
      ∃ ys, mapAtas decode l = .ok ys := by
  intro l
  induction l with
  | nil => exact fun _ => ⟨[], rfl⟩
  | cons ta rest ih =>
    intro h
    obtain ⟨d, hd⟩ := h ta (List.mem_cons_self ta rest)
    obtain ⟨ys, hys⟩ := ih fun a ha => h a (List.mem_cons_of_mem ta ha)
    refine ⟨{ tokenAccount := ta.pubkey, mint := d.mint,
              balance := f64ofNat (d.amount.getD 0) } :: ys, ?_⟩
    unfold mapAtas ataOfRaw
    rw [hd, hys]

theorem mapAtas_ok_get (decode : Nat → Except Unit DecodedAccount) :
    ∀ (l : List RawTokenAccount) (ys : List TokenAccount), mapAtas decode l = .ok ys →
      l.length = ys.length ∧
      ∀ i (hi : i < l.length) (hi' : i < ys.length),
        ataOfRaw decode (l.get ⟨i, hi⟩) = .ok (ys.get ⟨i, hi'⟩) := by
  intro l
  induction l with
  | nil =>
    intro ys h
    have hys : ys = [] := by
      simpa [mapAtas] using h.symm
    subst hys
    exact ⟨rfl, fun i hi => absurd hi (Nat.not_lt_zero i)⟩
  | cons ta rest ih =>
    intro ys h
    unfold mapAtas at h
    cases ha : ataOfRaw decode ta with
    | error e => rw [ha] at h; cases h
    | ok a =>
      rw [ha] at h
      cases hrest : mapAtas decode rest with
      | error e => rw [hrest] at h; cases h
      | ok as =>
        rw [hrest] at h
        cases h
        obtain ⟨hlen, hget⟩ := ih as hrest
        refine ⟨by simpa using hlen, ?_⟩
        intro i hi hi'
        cases i with
        | zero => simpa using ha
        | succ n =>
          have hn : n < rest.length := Nat.lt_of_succ_lt_succ hi
          have hn' : n < as.length := Nat.lt_of_succ_lt_succ hi'
          simpa using hget n hn hn'

/-- C4: `syncTokenAccounts` tolerates a missing escrow account or a failing
decode of its data: given the per-token decodes succeed, the thunk still
returns `ok` and the `dcEscrow` balance it reports is zero. -/
theorem claim_C4_escrow_decode_failure_tolerated (acct : CSAccount) (addr : String)
    (env : SyncEnv) (ha : acct.solanaAddress = some addr)
    (hatas : ∀ ta ∈ env.tokenAccounts, ∃ d, env.decode ta.data = .ok d)
    (hesc : env.dcEscrowAcc = none ∨
      ∃ acc, env.dcEscrowAcc = some acc ∧ env.decode acc.data = .error ()) :
    ∃ t, (syncTokenAccounts acct env).2 = .ok t ∧ t.dcEscrow.balance = 0 := by
  obtain ⟨ys, hys⟩ := mapAtas_ok_of_decode_ok env.decode env.tokenAccounts hatas
  have hesc0 : escrowBalanceOf env.decode env.dcEscrowAcc = 0 := by
    rcases hesc with h | ⟨acc, hacc, hdec⟩
    · simp [escrowBalanceOf, h]
    · simp [escrowBalanceOf, hacc, hdec]
  have hrun : (syncTokenAccounts acct env).2 =
      .ok { atas := ys,
            sol := { tokenAccount := addr,
                     balance := (env.solAcc.map AccountInfo.lamports).getD 0 },
            dcEscrow := { tokenAccount := env.escrowTokenAccount,
                          balance := escrowBalanceOf env.decode env.dcEscrowAcc } } := by
    unfold syncTokenAccounts
    rw [ha]
    dsimp only
    rw [hys]
  exact ⟨_, hrun, hesc0⟩

/-- Witness for C4: with no token accounts and an escrow account whose data
fails to decode, the sync completes with a zero escrow balance. -/
theorem claim_C4_escrow_decode_failure_tolerated_witness :
    ∃ t, (syncTokenAccounts { solanaAddress := some "addr" } sampleFailEnv).2 = .ok t ∧
      t.dcEscrow.balance = 0 :=
  claim_C4_escrow_decode_failure_tolerated { solanaAddress := some "addr" } "addr"
    sampleFailEnv rfl (by intro ta h; cases h)
    (Or.inr ⟨{ data := 0, lamports := 0 }, rfl, rfl⟩)

theorem f64ofNat_exact_of_le (n : Nat) (h : n ≤ 2 ^ 53) : f64ofNat n = n := by
  unfold f64ofNat
  rw [if_pos h]

/-- C10: the thunk converts each decoded u64 amount to a JS number; for any
token account whose decoded amount is at most 2^53 the recorded `atas`
balance equals the decoded amount exactly (a missing amount is recorded as 0). -/
theorem claim_C10_ata_balance_exact_below_53_bits (acct : CSAccount) (addr : String)
    (env : SyncEnv) (t : Tokens) (ha : acct.solanaAddress = some addr)
    (hsync : (syncTokenAccounts acct env).2 = .ok t)
    (i : Nat) (hi : i < env.tokenAccounts.length) (d : DecodedAccount)
    (hdec : env.decode (env.tokenAccounts.get ⟨i, hi⟩).data = .ok d)
    (hamt : d.amount.getD 0 ≤ 2 ^ 53) :
    ∃ hi' : i < t.atas.length,
      t.atas.get ⟨i, hi'⟩ =
        { tokenAccount := (env.tokenAccounts.get ⟨i, hi⟩).pubkey
          mint := d.mint
          balance := d.amount.getD 0 } := by
  unfold syncTokenAccounts at hsync
  rw [ha] at hsync
  dsimp only at hsync
  cases hm : mapAtas env.decode env.tokenAccounts with
  | error e => rw [hm] at hsync; cases hsync
  | ok ys =>
    rw [hm] at hsync
    cases hsync
    obtain ⟨hlen, hget⟩ := mapAtas_ok_get env.decode env.tokenAccounts ys hm
    have hi' : i < ys.length := hlen ▸ hi
    refine ⟨hi', ?_⟩
    have := hget i hi hi'
    rw [ataOfRaw, hdec] at this
    have hval := this.symm
    simp only [Except.ok.injEq] at hval
    rw [hval, f64ofNat_exact_of_le _ hamt]

/-- Witness for C10: a decoded amount of 5 is recorded exactly as balance 5. -/
theorem claim_C10_ata_balance_exact_below_53_bits_witness :
    ∃ hi' : 0 < sampleSyncTokens.atas.length,
      sampleSyncTokens.atas.get ⟨0, hi'⟩ =
        { tokenAccount := "pk", mint := "m", balance := 5 } := by
  have hsync : (syncTokenAccounts { solanaAddress := some "addr" } sampleSyncEnv).2 =
      .ok sampleSyncTokens := by
    norm_num [syncTokenAccounts, mapAtas, ataOfRaw, escrowBalanceOf, f64ofNat,
      sampleSyncEnv, sampleSyncTokens]
  exact claim_C10_ata_balance_exact_below_53_bits { solanaAddress := some "addr" }
    "addr" sampleSyncEnv _ rfl hsync 0 (by norm_num [sampleSyncEnv])
    { mint := "m", amount := some 5 } rfl (by norm_num)

end WalletApp
